import Mathlib

/-
Verification of the download-orchestration core of
src/src/components/VideoDownloader.tsx.

JavaScript numbers are modelled by `JsNum`: exact rationals plus the
special values NaN, Infinity and -Infinity, with the IEEE-style special
cases of the arithmetic operators made explicit (division by zero,
NaN propagation, truthiness of 0).  Rounding of finite doubles is
idealised as exact rational arithmetic.
-/

namespace VideoDownloader

/-- JavaScript number: a finite value (idealised as an exact rational),
NaN, Infinity or -Infinity. -/
inductive JsNum where
  | num (q : ℚ)
  | nan
  | inf
  | ninf
deriving DecidableEq

/-- JavaScript division `a / b`, including the zero-divisor special
cases: `0/0 = NaN`, `x/0 = ±Infinity` for `x ≠ 0`, `x/Infinity = 0`. -/
def jsDiv : JsNum → JsNum → JsNum
  | .nan, _ => .nan
  | _, .nan => .nan
  | .num a, .num b =>
      if b = 0 then (if a = 0 then .nan else if 0 < a then .inf else .ninf)
      else .num (a / b)
  | .num _, .inf => .num 0
  | .num _, .ninf => .num 0
  | .inf, .num b => if b < 0 then .ninf else .inf
  | .ninf, .num b => if b < 0 then .inf else .ninf
  | .inf, .inf => .nan
  | .inf, .ninf => .nan
  | .ninf, .inf => .nan
  | .ninf, .ninf => .nan

/-- JavaScript multiplication, with `0 * Infinity = NaN`. -/
def jsMul : JsNum → JsNum → JsNum
  | .nan, _ => .nan
  | _, .nan => .nan
  | .num a, .num b => .num (a * b)
  | .num a, .inf => if a = 0 then .nan else if 0 < a then .inf else .ninf
  | .num a, .ninf => if a = 0 then .nan else if 0 < a then .ninf else .inf
  | .inf, .num b => if b = 0 then .nan else if 0 < b then .inf else .ninf
  | .ninf, .num b => if b = 0 then .nan else if 0 < b then .ninf else .inf
  | .inf, .inf => .inf
  | .inf, .ninf => .ninf
  | .ninf, .inf => .ninf
  | .ninf, .ninf => .inf

/-- JavaScript subtraction, with `Infinity - Infinity = NaN`. -/
def jsSub : JsNum → JsNum → JsNum
  | .nan, _ => .nan
  | _, .nan => .nan
  | .num a, .num b => .num (a - b)
  | .num _, .inf => .ninf
  | .num _, .ninf => .inf
  | .inf, .num _ => .inf
  | .ninf, .num _ => .ninf
  | .inf, .inf => .nan
  | .ninf, .ninf => .nan
  | .inf, .ninf => .inf
  | .ninf, .inf => .ninf

/-- `Math.floor`: identity on NaN and the infinities. -/
def jsFloor : JsNum → JsNum
  | .num q => .num ((⌊q⌋ : ℤ) : ℚ)
  | .nan => .nan
  | .inf => .inf
  | .ninf => .ninf

/-- `Math.max` on two arguments: NaN-absorbing, otherwise the maximum. -/
def jsMax : JsNum → JsNum → JsNum
  | .nan, _ => .nan
  | _, .nan => .nan
  | .inf, _ => .inf
  | _, .inf => .inf
  | .ninf, b => b
  | a, .ninf => a
  | .num p, .num q => .num (max p q)

/-- Truncation toward zero of a rational, as used by the JavaScript
remainder operator. -/
def ratTrunc (q : ℚ) : ℤ := if 0 ≤ q then ⌊q⌋ else ⌈q⌉

/-- JavaScript remainder `a % b`: truncated division, so the result
carries the sign of the dividend; `a % 0 = NaN`, `a % Infinity = a`. -/
def jsRem : JsNum → JsNum → JsNum
  | .nan, _ => .nan
  | _, .nan => .nan
  | .num a, .num b => if b = 0 then .nan else .num (a - b * (ratTrunc (a / b) : ℚ))
  | .num a, .inf => .num a
  | .num a, .ninf => .num a
  | .inf, _ => .nan
  | .ninf, _ => .nan

/-- Rendering of a JavaScript number inside a template string.  The
program only ever renders results of `Math.floor`, so the finite case is
always an integer. -/
def jsToString : JsNum → String
  | .num q => if q.den = 1 then toString q.num else toString q.num ++ "/" ++ toString q.den
  | .nan => "NaN"
  | .inf => "Infinity"
  | .ninf => "-Infinity"

/-- `formatTime` of VideoDownloader.tsx (lines 133-137):
minutes = Math.floor(seconds / 60), secs = Math.floor(seconds % 60),
rendered as a template string. -/
def formatTime (seconds : JsNum) : String :=
  jsToString (jsFloor (jsDiv seconds (.num 60))) ++ "m "
    ++ jsToString (jsFloor (jsRem seconds (.num 60))) ++ "s"

/-- Metadata returned by the video-info endpoint; the orchestration code
reads only `title` (for the request body and the filename fallback) and
`thumbnail` (display). -/
structure VideoInfo where
  title : String
  thumbnail : String
deriving DecidableEq

/-- The component's reactive state: the six `useState` fields of
VideoDownloader.tsx (lines 8-13).  `progress` is a `JsNum` because the
code stores the raw result of `Math.floor((current / total) * 100)`,
which can be NaN or Infinity. -/
structure Session where
  url : String
  error : String
  loading : Bool
  videoInfo : Option VideoInfo
  progress : JsNum
  estimatedTime : Option String
deriving DecidableEq

/-- The initial values of the six `useState` hooks. -/
def initialSession : Session :=
  { url := "", error := "", loading := false, videoInfo := none,
    progress := JsNum.num 0, estimatedTime := none }

/-- An axios progress event: cumulative bytes, optional expected total,
optional start timestamp (milliseconds, rationals idealising doubles). -/
structure ProgressEvent where
  loaded : ℕ
  total : Option ℕ
  startTime : Option ℚ
deriving DecidableEq

/-- `const total = progressEvent.total || 0` (line 68): an absent total
becomes 0; a present total of 0 stays 0. -/
def eventTotal (e : ProgressEvent) : ℕ := e.total.getD 0

/-- `progressEvent.startTime || new Date().getTime()` (line 77): JS `||`
falls through to `now` when `startTime` is absent or 0. -/
def startValue (e : ProgressEvent) (now : ℚ) : ℚ :=
  match e.startTime with
  | none => now
  | some s => if s = 0 then now else s

/-- `Math.floor((current / total) * 100)` (line 70), computed
unconditionally — with `total = 0` this divides by zero. -/
def percentOf (e : ProgressEvent) : JsNum :=
  jsFloor (jsMul (jsDiv (.num e.loaded) (.num (eventTotal e))) (.num 100))

/-- `(new Date().getTime() - (progressEvent.startTime || new Date().getTime())) / 1000`
(line 77); both `getTime()` calls are modelled as the same instant. -/
def elapsedOf (e : ProgressEvent) (now : ℚ) : ℚ := (now - startValue e now) / 1000

/-- `remainingTime = Math.max(totalTime - elapsedTime, 0)` with
`totalTime = elapsedTime / (current / total)` (lines 78-79). -/
def etaOf (e : ProgressEvent) (now : ℚ) : JsNum :=
  jsMax
    (jsSub
      (jsDiv (.num (elapsedOf e now)) (jsDiv (.num e.loaded) (.num (eventTotal e))))
      (.num (elapsedOf e now)))
    (.num 0)

/-- The `onDownloadProgress` callback (lines 67-82): `setProgress(percent)`
always runs; `setEstimatedTime(formatTime(remainingTime))` only when
`total > 0`. -/
def sessionAfterProgress (st : Session) (e : ProgressEvent) (now : ℚ) : Session :=
  if 0 < eventTotal e then
    { st with progress := percentOf e,
              estimatedTime := some (formatTime (etaOf e now)) }
  else
    { st with progress := percentOf e }

/-- Sequential application of the progress callbacks of one download. -/
def applyEvents (st : Session) : List (ProgressEvent × ℚ) → Session
  | [] => st
  | pe :: rest => applyEvents (sessionAfterProgress st pe.1 pe.2) rest

/-- A transient toast notification. -/
inductive Toast where
  | success (msg : String)
  | error (msg : String)
deriving DecidableEq

/-- The body of a video-info response: an optional service-level `error`
field plus the metadata fields. -/
structure InfoPayload where
  error : Option String
  info : VideoInfo
deriving DecidableEq

/-- Result of awaiting the video-info request: a transport-level failure
(rejected promise) or a 2xx JSON payload. -/
inductive FetchOutcome where
  | transportError (msg : String)
  | payload (p : InfoPayload)
deriving DecidableEq

/-- JS truthiness of an optional string field: absent and `""` are falsy. -/
def jsTruthy : Option String → Bool
  | none => false
  | some s => !(s == "")

/-- The synchronous prefix of `fetchVideoInfo` (lines 22-23), executed at
invocation before the request is awaited. -/
def fetchStart (st : Session) : Session := { st with loading := true, error := "" }

/-- The continuation of `fetchVideoInfo` once its response arrives
(lines 25-43): a truthy `response.data.error` is thrown and lands in the
same catch as a transport error; the catch stores the message and toasts;
`finally` clears `loading`. -/
def fetchComplete (st : Session) (o : FetchOutcome) : Session × List Toast :=
  match o with
  | .transportError m =>
      ({ st with error := "Error fetching video info: " ++ m, loading := false },
       [Toast.error ("Invalid URL: " ++ m)])
  | .payload p =>
      if jsTruthy p.error then
        ({ st with error := "Error fetching video info: " ++ p.error.getD (""),
                   loading := false },
         [Toast.error ("Invalid URL: " ++ p.error.getD (""))])
      else
        ({ st with videoInfo := some p.info, loading := false }, [])

/-- A complete run of `fetchVideoInfo` (lines 21-44) with a given outcome
of the awaited request. -/
def fetchVideoInfo (st : Session) (o : FetchOutcome) : Session × List Toast :=
  fetchComplete (fetchStart st) o

/-- `!videoInfo?.title` is falsy when `videoInfo` is null or its title is
the empty string (line 46). -/
def titleOk (v : Option VideoInfo) : Bool :=
  match v with
  | none => false
  | some i => !(i.title == "")

/-- Filename derivation (lines 86-87): a truthy `content-disposition`
header is split on `filename=` and indexed at 1 (an out-of-range index is
JS `undefined`, modelled as `""`); otherwise `videoInfo.title + ".mp4"`. -/
def filenameFromDisposition (cd : Option String) (title : String) : String :=
  match cd with
  | none => title ++ ".mp4"
  | some c => if c == "" then title ++ ".mp4" else (c.splitOn ("filename=")).getD 1 ("")

/-- Result of awaiting the download request: a rejected promise, or a
response with an optional `content-disposition` header and a blob size. -/
inductive DownloadOutcome where
  | transportError (msg : String)
  | response (contentDisposition : Option String) (size : ℕ)
deriving DecidableEq

/-- Observable outcome of one `handleDownload` invocation: final state,
toasts, filenames saved through the host file-save capability, the state
at the instant the streaming request was issued (`none` when no network
call was made), and whether `fetchVideoInfo` was re-invoked at the end. -/
structure DownloadRun where
  final : Session
  toasts : List Toast
  saved : List String
  requestState : Option Session
  refetched : Bool
deriving DecidableEq

/-- The state changes of lines 53-57, executed synchronously between the
precondition check and the issuing of the streaming request:
`setLoading(true)`, `setError('')`, `setProgress(0)`,
`setEstimatedTime(null)`, `setVideoInfo(null)`. -/
def downloadStartState (st : Session) : Session :=
  { st with loading := true, error := "", progress := JsNum.num 0,
            estimatedTime := none, videoInfo := none }

/-- A complete run of `handleDownload` (lines 45-113).

Validation (lines 46-51) happens before any state change or network call.
On the non-validation path the captured closure variable `videoInfo` keeps
its invocation-time value, so `videoInfo?.title` (request body, line 61)
and `videoInfo.title` (filename fallback, line 87) still see the old
title even though `setVideoInfo(null)` ran at line 57.  `size == 0`
throws before the blob is materialized (lines 89-91); every terminal path
runs the `finally` that clears `loading` (lines 111-113). -/
def handleDownloadRun (st : Session) (events : List (ProgressEvent × ℚ))
    (o : DownloadOutcome) : DownloadRun :=
  if st.url == "" || !(titleOk st.videoInfo) then
    { final := { st with error := "URL and video title are required" },
      toasts := [Toast.error ("URL and video title are required")],
      saved := [], requestState := none, refetched := false }
  else
    let title := (st.videoInfo.map VideoInfo.title).getD ("")
    let st1 : Session := downloadStartState st
    let st2 := applyEvents st1 events
    match o with
    | .transportError m =>
        let stErr : Session :=
          { st2 with error := "Error downloading video: " ++ m, loading := false }
        { final := stErr,
          toasts := [Toast.error ("Error downloading video: " ++ m)],
          saved := [], requestState := some st1, refetched := false }
    | .response cd size =>
        if size == 0 then
          let stErr : Session :=
            { st2 with error := "Error downloading video: Received empty file",
                       loading := false }
          { final := stErr,
            toasts := [Toast.error ("Error downloading video: Received empty file")],
            saved := [], requestState := some st1, refetched := false }
        else
          { final := { st2 with loading := false },
            toasts := [Toast.success ("Download completed successfully!")],
            saved := [filenameFromDisposition cd title],
            requestState := some st1, refetched := true }

/-- `handleClear` (lines 125-131): resets url, videoInfo, error, progress
and estimatedTime.  It does not touch `loading`. -/
def handleClear (st : Session) : Session :=
  { st with url := "", videoInfo := none, error := "",
            progress := JsNum.num 0, estimatedTime := none }

/-- Metadata of the first URL in the stale-response scenario. -/
def infoA : VideoInfo := { title := "Video A", thumbnail := "http://cdn/a.jpg" }

/-- Metadata of the second URL in the stale-response scenario. -/
def infoB : VideoInfo := { title := "Video B", thumbnail := "http://cdn/b.jpg" }

/-- Interleaving in which the fetch for URL A is issued, then the fetch
for URL B, and B's response arrives before A's.  Each issuance runs the
synchronous prefix of `fetchVideoInfo`; each arrival runs its
continuation.  The code has no guard tying a response to the URL it was
issued for, so the updates land in arrival order. -/
def staleScenarioFinal : Session :=
  let s1 := fetchStart { initialSession with url := "http://example.com/A" }
  let s2 := fetchStart { s1 with url := "http://example.com/B" }
  let s3 := (fetchComplete s2 (.payload { error := none, info := infoB })).1
  (fetchComplete s3 (.payload { error := none, info := infoA })).1

/-- Concrete evaluation of `formatTime` at 125 seconds. -/
theorem formatTime_125 : formatTime (JsNum.num 125) = "2m 5s" := by
  norm_num [formatTime, jsDiv, jsRem, jsFloor, jsToString, ratTrunc]
  rfl

/-- Concrete evaluation of `formatTime` at 0 seconds. -/
theorem formatTime_0 : formatTime (JsNum.num 0) = "0m 0s" := by
  norm_num [formatTime, jsDiv, jsRem, jsFloor, jsToString, ratTrunc]
  rfl

/-- Concrete evaluation of `formatTime` at -5 seconds: `Math.floor(-5/60)`
is -1 and the JavaScript remainder `-5 % 60` is -5. -/
theorem formatTime_neg5 : formatTime (JsNum.num (-5)) = "-1m -5s" := by
  have hceil : (⌈-((1:ℚ) / 12)⌉ : ℤ) = 0 := by norm_num
  norm_num [formatTime, jsDiv, jsRem, jsFloor, jsToString, ratTrunc, hceil]
  rfl

/-- Concrete evaluation of `formatTime` at NaN: both template slots
render as NaN. -/
theorem formatTime_nan : formatTime JsNum.nan = "NaNm NaNs" := by
  norm_num [formatTime, jsDiv, jsRem, jsFloor, jsToString, ratTrunc]
  rfl

/-- The stored progress after a chunk callback is always the raw
`Math.floor((current / total) * 100)` value, in every branch. -/
theorem sessionAfterProgress_progress (st : Session) (e : ProgressEvent) (now : ℚ) :
    (sessionAfterProgress st e now).progress = percentOf e := by
  unfold sessionAfterProgress
  split <;> rfl

/-- C4 counterexample: `formatTime` does not clamp adversarial input to
"0m 0s" — a negative input renders negative minutes and seconds, and NaN
renders as NaN. -/
theorem C4_counterexample :
    formatTime (JsNum.num (-5)) ≠ "0m 0s" ∧ formatTime JsNum.nan ≠ "0m 0s" := by
  rw [formatTime_neg5, formatTime_nan]
  constructor <;> decide

/-- C4 (amended): `formatTime` maps a nonnegative whole number of seconds
to integer minutes and integer seconds: 125 gives "2m 5s" and 0 gives
"0m 0s".  Negative and NaN inputs are not clamped: -5 gives "-1m -5s"
(JavaScript floor division and sign-of-dividend remainder) and NaN gives
"NaNm NaNs". -/
theorem C4_formatTime :
    formatTime (JsNum.num 125) = "2m 5s"
      ∧ formatTime (JsNum.num 0) = "0m 0s"
      ∧ formatTime (JsNum.num (-5)) = "-1m -5s"
      ∧ formatTime JsNum.nan = "NaNm NaNs" :=
  ⟨formatTime_125, formatTime_0, formatTime_neg5, formatTime_nan⟩

/-- C9 counterexample: invoking Clear while the loading flag is set does
not return it to its initial (false) value — `handleClear` never calls
`setLoading`. -/
theorem C9_counterexample :
    (handleClear { initialSession with loading := true }).loading ≠ false := by
  simp [handleClear, initialSession]

/-- C9 (amended): Clear resets url, metadata, error, progress and the ETA
to their initial empty/absent values, but leaves the loading flag exactly
as it was. -/
theorem C9_clear (st : Session) :
    (handleClear st).url = ""
      ∧ (handleClear st).videoInfo = none
      ∧ (handleClear st).error = ""
      ∧ (handleClear st).progress = JsNum.num 0
      ∧ (handleClear st).estimatedTime = none
      ∧ (handleClear st).loading = st.loading :=
  ⟨rfl, rfl, rfl, rfl, rfl, rfl⟩

/-- C3: with fetches issued for URL A then URL B and B's response arriving
first, the final metadata is A's — the code has no stale-response guard,
so the last arrival wins regardless of which URL is current. -/
theorem C3_stale_overwrite :
    staleScenarioFinal.videoInfo = some infoA ∧ infoA ≠ infoB := by
  constructor
  · rfl
  · decide

/-- C1 counterexample: at a progress event with bytesTotal = 0 the code
still computes `Math.floor((0 / 0) * 100)`, storing NaN as the progress —
it is not held at the last known value (37 here). -/
theorem C1_counterexample :
    (sessionAfterProgress { initialSession with progress := JsNum.num 37 }
        { loaded := 0, total := some 0, startTime := none } 0).progress = JsNum.nan
      ∧ JsNum.nan ≠ JsNum.num 37 := by
  constructor
  · rw [sessionAfterProgress_progress]
    norm_num [percentOf, eventTotal, jsDiv, jsMul, jsFloor]
  · simp

/-- C1 (amended): when bytesTotal > 0 and bytesLoaded ≤ bytesTotal the
stored percent is floor(bytesLoaded / bytesTotal * 100) and lies in
[0,100]; but when bytesTotal = 0 the division is performed anyway, and
the stored progress is NaN (bytesLoaded = 0) or Infinity
(bytesLoaded > 0) rather than being held at the last known value. -/
theorem C1_percent (st : Session) (e : ProgressEvent) (now : ℚ) :
    (∀ t : ℕ, e.total = some t → 0 < t → e.loaded ≤ t →
      (sessionAfterProgress st e now).progress
          = JsNum.num ((⌊((e.loaded : ℚ) / (t : ℚ)) * 100⌋ : ℤ) : ℚ)
        ∧ 0 ≤ ⌊((e.loaded : ℚ) / (t : ℚ)) * 100⌋
        ∧ ⌊((e.loaded : ℚ) / (t : ℚ)) * 100⌋ ≤ 100)
    ∧ (eventTotal e = 0 → e.loaded = 0 →
        (sessionAfterProgress st e now).progress = JsNum.nan)
    ∧ (eventTotal e = 0 → 0 < e.loaded →
        (sessionAfterProgress st e now).progress = JsNum.inf) := by
  refine ⟨?_, ?_, ?_⟩
  · intro t ht hpos hle
    have htot : eventTotal e = t := by simp [eventTotal, ht]
    have ht0 : ((t : ℕ) : ℚ) ≠ 0 := by exact_mod_cast hpos.ne'
    refine ⟨?_, ?_, ?_⟩
    · rw [sessionAfterProgress_progress]
      simp [percentOf, htot, jsDiv, jsMul, jsFloor, ht0]
    · exact Int.floor_nonneg.mpr (by positivity)
    · have h1 : ((e.loaded : ℚ) / (t : ℚ)) ≤ 1 := by
        rw [div_le_one (by exact_mod_cast hpos)]
        exact_mod_cast hle
      have hup : ((e.loaded : ℚ) / (t : ℚ)) * 100 ≤ 100 := by nlinarith
      have h100 : (100 : ℤ) = ⌊(100 : ℚ)⌋ := by norm_num
      rw [h100]
      exact Int.floor_le_floor hup
  · intro h0 hl
    rw [sessionAfterProgress_progress]
    norm_num [percentOf, h0, hl, jsDiv, jsMul, jsFloor]
  · intro h0 hl
    have hc : (0 : ℚ) < (e.loaded : ℚ) := by exact_mod_cast hl
    rw [sessionAfterProgress_progress]
    norm_num [percentOf, h0, jsDiv, jsMul, jsFloor, hc, hc.ne']

/-- C1 witness: a 50-of-200-byte event stores floor(25%) and a
3-of-0-byte event stores Infinity. -/
theorem C1_percent_witness :
    (sessionAfterProgress initialSession
        { loaded := 50, total := some 200, startTime := none } 0).progress
        = JsNum.num ((⌊(((50 : ℕ) : ℚ) / ((200 : ℕ) : ℚ)) * 100⌋ : ℤ) : ℚ)
      ∧ (sessionAfterProgress initialSession
          { loaded := 3, total := some 0, startTime := none } 0).progress = JsNum.inf := by
  constructor
  · exact ((C1_percent initialSession
      { loaded := 50, total := some 200, startTime := none } 0).1 200 rfl
      (by norm_num) (by norm_num)).1
  · exact (C1_percent initialSession
      { loaded := 3, total := some 0, startTime := none } 0).2.2 rfl (by norm_num)

/-- A chunk callback never touches the error field. -/
theorem sessionAfterProgress_error (st : Session) (e : ProgressEvent) (now : ℚ) :
    (sessionAfterProgress st e now).error = st.error := by
  unfold sessionAfterProgress
  split <;> rfl

/-- The callbacks of a whole download never touch the error field. -/
theorem applyEvents_error (events : List (ProgressEvent × ℚ)) (st : Session) :
    (applyEvents st events).error = st.error := by
  induction events generalizing st with
  | nil => rfl
  | cons pe rest ih => rw [applyEvents, ih, sessionAfterProgress_error]

/-- Equation for the validation branch of `handleDownload` (lines 46-51). -/
theorem handleDownloadRun_validation (st : Session) (events : List (ProgressEvent × ℚ))
    (o : DownloadOutcome) (hc : (st.url == "" || !(titleOk st.videoInfo)) = true) :
    handleDownloadRun st events o =
      { final := { st with error := "URL and video title are required" },
        toasts := [Toast.error ("URL and video title are required")],
        saved := [], requestState := none, refetched := false } := by
  unfold handleDownloadRun
  rw [hc]
  rfl

/-- Equation for the transport-failure branch of `handleDownload`. -/
theorem handleDownloadRun_transport (st : Session) (events : List (ProgressEvent × ℚ))
    (m : String) (hc : (st.url == "" || !(titleOk st.videoInfo)) = false) :
    handleDownloadRun st events (.transportError m) =
      { final := { applyEvents (downloadStartState st) events with
                    error := "Error downloading video: " ++ m, loading := false },
        toasts := [Toast.error ("Error downloading video: " ++ m)],
        saved := [], requestState := some (downloadStartState st),
        refetched := false } := by
  unfold handleDownloadRun
  rw [hc]
  rfl

/-- Equation for the empty-blob branch of `handleDownload` (lines 89-91). -/
theorem handleDownloadRun_empty (st : Session) (events : List (ProgressEvent × ℚ))
    (cd : Option String) (hc : (st.url == "" || !(titleOk st.videoInfo)) = false) :
    handleDownloadRun st events (.response cd 0) =
      { final := { applyEvents (downloadStartState st) events with
                    error := "Error downloading video: Received empty file",
                    loading := false },
        toasts := [Toast.error ("Error downloading video: Received empty file")],
        saved := [], requestState := some (downloadStartState st),
        refetched := false } := by
  unfold handleDownloadRun
  rw [hc]
  rfl

/-- Equation for the success branch of `handleDownload` (lines 93-107). -/
theorem handleDownloadRun_success (st : Session) (events : List (ProgressEvent × ℚ))
    (cd : Option String) (size : ℕ)
    (hc : (st.url == "" || !(titleOk st.videoInfo)) = false) (hsize : size ≠ 0) :
    handleDownloadRun st events (.response cd size) =
      { final := { applyEvents (downloadStartState st) events with loading := false },
        toasts := [Toast.success ("Download completed successfully!")],
        saved := [filenameFromDisposition cd ((st.videoInfo.map VideoInfo.title).getD (""))],
        requestState := some (downloadStartState st), refetched := true } := by
  unfold handleDownloadRun
  rw [hc]
  have hz : (size == 0) = false := by simp [hsize]
  simp only [Bool.false_eq_true, if_false, hz]

/-- Validation passes whenever the url is non-empty and a non-empty title
is present. -/
theorem validation_passes (st : Session) (hurl : st.url ≠ "")
    (ht : titleOk st.videoInfo = true) :
    (st.url == "" || !(titleOk st.videoInfo)) = false := by
  simp [hurl, ht]

/-- C7: at a progress event with bytesTotal > 0 (and a positive byte
count and a usable start timestamp) the emitted ETA is exactly
max(elapsed / (bytesLoaded / bytesTotal) - elapsed, 0) seconds with
elapsed = (now - startTime)/1000, which is never negative; at an event
with bytesTotal = 0 no ETA is emitted and the stored value is unchanged. -/
theorem C7_eta (st : Session) (e : ProgressEvent) (now : ℚ) :
    (∀ (t : ℕ) (s : ℚ), e.total = some t → 0 < t → 0 < e.loaded →
        e.startTime = some s → s ≠ 0 →
      (sessionAfterProgress st e now).estimatedTime
          = some (formatTime (JsNum.num
              (max ((now - s) / 1000 / ((e.loaded : ℚ) / (t : ℚ)) - (now - s) / 1000) 0)))
        ∧ 0 ≤ max ((now - s) / 1000 / ((e.loaded : ℚ) / (t : ℚ)) - (now - s) / 1000) 0)
    ∧ (eventTotal e = 0 →
        (sessionAfterProgress st e now).estimatedTime = st.estimatedTime) := by
  constructor
  · intro t s ht hpos hl hs hs0
    have htot : eventTotal e = t := by simp [eventTotal, ht]
    have htpos : 0 < eventTotal e := htot ▸ hpos
    have hE : elapsedOf e now = (now - s) / 1000 := by
      simp [elapsedOf, startValue, hs, hs0]
    have hql : ((e.loaded : ℕ) : ℚ) ≠ 0 := by exact_mod_cast hl.ne'
    have hqt : ((t : ℕ) : ℚ) ≠ 0 := by exact_mod_cast hpos.ne'
    have hq : ((e.loaded : ℚ) / (t : ℚ)) ≠ 0 := div_ne_zero hql hqt
    have heta : etaOf e now
        = JsNum.num (max ((now - s) / 1000 / ((e.loaded : ℚ) / (t : ℚ))
            - (now - s) / 1000) 0) := by
      rw [etaOf, hE, htot]
      simp [jsDiv, jsSub, jsMax, hq, hqt]
    constructor
    · unfold sessionAfterProgress
      rw [if_pos htpos, heta]
    · exact le_max_right _ _
  · intro h0
    simp [sessionAfterProgress, h0]

/-- C7 witness: 100 of 400 bytes after one second of a download started
at timestamp 5ms, observed at 1005ms. -/
theorem C7_eta_witness :
    (sessionAfterProgress initialSession
        { loaded := 100, total := some 400, startTime := some 5 } 1005).estimatedTime
      = some (formatTime (JsNum.num
          (max (((1005 : ℚ) - 5) / 1000 / (((100 : ℕ) : ℚ) / ((400 : ℕ) : ℚ))
            - ((1005 : ℚ) - 5) / 1000) 0))) :=
  ((C7_eta initialSession { loaded := 100, total := some 400, startTime := some 5 } 1005).1
    400 5 rfl (by norm_num) (by norm_num) rfl (by norm_num)).1

/-- C2: a completed download whose response has no Content-Disposition
header saves exactly one file named `<title>.mp4`, with a success toast
and an empty error state. -/
theorem C2_filename (st : Session) (info : VideoInfo) (events : List (ProgressEvent × ℚ))
    (size : ℕ) (hurl : st.url ≠ "") (hinfo : st.videoInfo = some info)
    (htitle : info.title ≠ "") (hsize : size ≠ 0) :
    (handleDownloadRun st events (.response none size)).saved = [info.title ++ ".mp4"]
      ∧ (handleDownloadRun st events (.response none size)).toasts
          = [Toast.success ("Download completed successfully!")]
      ∧ (handleDownloadRun st events (.response none size)).final.error = "" := by
  have ht : titleOk st.videoInfo = true := by simp [titleOk, hinfo, htitle]
  have hc := validation_passes st hurl ht
  rw [handleDownloadRun_success st events none size hc hsize]
  refine ⟨?_, rfl, ?_⟩
  · simp [filenameFromDisposition, hinfo]
  · show (applyEvents (downloadStartState st) events).error = ""
    rw [applyEvents_error]
    rfl

/-- Metadata titled MyClip. -/
def myClipInfo : VideoInfo := { title := "MyClip", thumbnail := "http://cdn/t.jpg" }

/-- A session holding metadata titled MyClip, ready to download. -/
def myClipSession : Session :=
  { initialSession with url := "http://example.com/v", videoInfo := some myClipInfo }

/-- C2 witness: title MyClip and no disposition header yield MyClip.mp4. -/
theorem C2_filename_witness :
    (handleDownloadRun myClipSession [] (.response none 1024)).saved = ["MyClip.mp4"]
      ∧ (handleDownloadRun myClipSession [] (.response none 1024)).toasts
          = [Toast.success ("Download completed successfully!")] := by
  have h := C2_filename myClipSession myClipInfo [] 1024 (by decide) rfl
    (by decide) (by norm_num)
  exact ⟨h.1.trans (by decide), h.2.1⟩

/-- C5: with an empty url or an absent/empty title, `handleDownload`
returns before issuing any network request; the validation message is
stored in the error state and pushed as a toast, the same two channels a
downstream failure uses. -/
theorem C5_validation (st : Session) (events : List (ProgressEvent × ℚ))
    (o : DownloadOutcome) (h : st.url = "" ∨ titleOk st.videoInfo = false) :
    (handleDownloadRun st events o).requestState = none
      ∧ (handleDownloadRun st events o).final
          = { st with error := "URL and video title are required" }
      ∧ (handleDownloadRun st events o).toasts
          = [Toast.error ("URL and video title are required")] := by
  have hc : (st.url == "" || !(titleOk st.videoInfo)) = true := by
    rcases h with h | h <;> simp [h]
  rw [handleDownloadRun_validation st events o hc]
  exact ⟨rfl, rfl, rfl⟩

/-- C5 witness: empty url, validation error, no request state recorded. -/
theorem C5_validation_witness :
    (handleDownloadRun initialSession [] (.transportError ("net"))).requestState = none
      ∧ (handleDownloadRun initialSession [] (.transportError ("net"))).final
          = { initialSession with error := "URL and video title are required" }
      ∧ (handleDownloadRun initialSession [] (.transportError ("net"))).toasts
          = [Toast.error ("URL and video title are required")] :=
  C5_validation initialSession [] (.transportError ("net")) (Or.inl rfl)

/-- C6: a zero-byte response never saves a file — it raises the
empty-file error through the ordinary error channels — and a file is only
ever saved for a response of positive byte size. -/
theorem C6_empty (st : Session) (events : List (ProgressEvent × ℚ)) (cd : Option String)
    (hurl : st.url ≠ "") (ht : titleOk st.videoInfo = true) :
    (handleDownloadRun st events (.response cd 0)).saved = []
      ∧ (handleDownloadRun st events (.response cd 0)).final.error
          = "Error downloading video: Received empty file"
      ∧ (handleDownloadRun st events (.response cd 0)).toasts
          = [Toast.error ("Error downloading video: Received empty file")]
      ∧ ∀ (o : DownloadOutcome), (handleDownloadRun st events o).saved ≠ [] →
          ∃ (cd2 : Option String) (size : ℕ), o = .response cd2 size ∧ 0 < size := by
  have hc := validation_passes st hurl ht
  rw [handleDownloadRun_empty st events cd hc]
  refine ⟨rfl, rfl, rfl, ?_⟩
  intro o ho
  cases o with
  | transportError m =>
      rw [handleDownloadRun_transport st events m hc] at ho
      exact absurd rfl ho
  | response cd2 size =>
      by_cases hsz : size = 0
      · subst hsz
        rw [handleDownloadRun_empty st events cd2 hc] at ho
        exact absurd rfl ho
      · exact ⟨cd2, size, rfl, Nat.pos_of_ne_zero hsz⟩

/-- C6 witness: a zero-byte response for the MyClip session saves nothing
and reports the empty-file error. -/
theorem C6_empty_witness :
    (handleDownloadRun myClipSession [] (.response none 0)).saved = []
      ∧ (handleDownloadRun myClipSession [] (.response none 0)).final.error
          = "Error downloading video: Received empty file" := by
  have h := C6_empty myClipSession [] none (by decide) (by decide)
  exact ⟨h.1, h.2.1⟩

/-- C8: whenever a download passes its precondition, the session state at
the instant the streaming request is issued has its metadata already
cleared to absent (and progress and ETA reset). -/
theorem C8_clear_metadata (st : Session) (events : List (ProgressEvent × ℚ))
    (o : DownloadOutcome) (hurl : st.url ≠ "") (ht : titleOk st.videoInfo = true) :
    (handleDownloadRun st events o).requestState = some (downloadStartState st)
      ∧ (downloadStartState st).videoInfo = none
      ∧ (downloadStartState st).estimatedTime = none
      ∧ (downloadStartState st).progress = JsNum.num 0 := by
  have hc := validation_passes st hurl ht
  refine ⟨?_, rfl, rfl, rfl⟩
  cases o with
  | transportError m => rw [handleDownloadRun_transport st events m hc]
  | response cd size =>
      by_cases hsz : size = 0
      · subst hsz
        rw [handleDownloadRun_empty st events cd hc]
      · rw [handleDownloadRun_success st events cd size hc hsz]

/-- C8 witness: the MyClip session issues its request from a state with
no metadata. -/
theorem C8_clear_metadata_witness :
    (handleDownloadRun myClipSession [] (.transportError ("net"))).requestState
        = some (downloadStartState myClipSession)
      ∧ (downloadStartState myClipSession).videoInfo = none :=
  have h := C8_clear_metadata myClipSession [] (.transportError ("net"))
    (by decide) (by decide)
  ⟨h.1, h.2.1⟩

/-- C10: every terminated metadata fetch leaves the loading flag false,
and every terminated download invoked from a non-busy session (the
download button is disabled while loading) also leaves it false — no
terminal path skips the `finally` that clears the flag. -/
theorem C10_loading (st1 : Session) (o1 : FetchOutcome) (st2 : Session)
    (events : List (ProgressEvent × ℚ)) (o2 : DownloadOutcome)
    (h : st2.loading = false) :
    (fetchVideoInfo st1 o1).1.loading = false
      ∧ (handleDownloadRun st2 events o2).final.loading = false := by
  constructor
  · cases o1 with
    | transportError m => rfl
    | payload p =>
        by_cases hjt : jsTruthy p.error = true <;>
          simp [fetchVideoInfo, fetchComplete, hjt]
  · cases hb : (st2.url == "" || !(titleOk st2.videoInfo)) with
    | true =>
        rw [handleDownloadRun_validation st2 events o2 hb]
        exact h
    | false =>
        cases o2 with
        | transportError m => rw [handleDownloadRun_transport st2 events m hb]
        | response cd size =>
            by_cases hsz : size = 0
            · subst hsz
              rw [handleDownloadRun_empty st2 events cd hb]
            · rw [handleDownloadRun_success st2 events cd size hb hsz]

/-- C10 witness: a failing fetch and a failing download both end with the
loading flag false. -/
theorem C10_loading_witness :
    (fetchVideoInfo initialSession (.transportError ("down"))).1.loading = false
      ∧ (handleDownloadRun initialSession [] (.transportError ("down"))).final.loading
          = false :=
  C10_loading initialSession (.transportError ("down")) initialSession []
    (.transportError ("down")) rfl

end VideoDownloader
